import Mathlib

deriving instance DecidableEq for Except

/-!
Verification development for the libgroove decode engine (src/playlist.c).

Shallow embedding: each C function the claims touch is translated into a
Lean definition over explicit state; machine pointers become `Option`-typed
ids, doubles become `ℚ` (only compared and copied here, never rounded),
C ints become `Int`, and heap cells live in association lists so that
`av_free` really deletes the cell.  Fallible paths return `Option`/`Except`.
-/

set_option autoImplicit false

namespace Groove

/-! ## Buffers and the sink queue (playlist.c lines 80-135, 531-569, 764-778, 1077-1103) -/

/-- A non-null `GrooveBuffer *`: identity plus the `size` field the queue
hooks read (`buffer->size`, in bytes, an `int`). -/
structure BufRef where
  bid : Nat
  size : Int
deriving DecidableEq

/-- A `GrooveBuffer *` value as stored in a queue: `none` is the C `NULL`
pointer. -/
abbrev BufPtr := Option BufRef

/-- `static GrooveBuffer *end_of_q_sentinel = NULL;`  The variable is never
assigned anywhere else in playlist.c, so its value is the null pointer. -/
def end_of_q_sentinel : BufPtr := none

/-- `GrooveSinkPrivate`: the sink's queue contents plus the two counters the
queue hooks maintain (`audioq_buf_count`, `audioq_size`). -/
structure SinkQ where
  q : List BufPtr
  audioq_buf_count : Int
  audioq_size : Int
deriving DecidableEq

/-- `buffer->size` read through a possibly-null pointer; the `none` branch is
never reached by the hooks, which test against the sentinel first. -/
def ptrSize : BufPtr → Int
  | none => 0
  | some b => b.size

/-- `audioq_put` hook: skip the sentinel, otherwise bump count and byte size. -/
def audioq_put_hook (s : SinkQ) (obj : BufPtr) : SinkQ :=
  if obj = end_of_q_sentinel then s
  else { s with audioq_buf_count := s.audioq_buf_count + 1,
                audioq_size := s.audioq_size + ptrSize obj }

/-- `audioq_get` hook: mirror of put (decrements), skipping the sentinel. -/
def audioq_get_hook (s : SinkQ) (obj : BufPtr) : SinkQ :=
  if obj = end_of_q_sentinel then s
  else { s with audioq_buf_count := s.audioq_buf_count - 1,
                audioq_size := s.audioq_size - ptrSize obj }

/-- Modelled from the spec: the generic bounded FIFO queue primitive
(src/queue.c is not under src/).  `put` appends the object and invokes the
queue's put hook. -/
def groove_queue_put (s : SinkQ) (obj : BufPtr) : SinkQ :=
  let s := audioq_put_hook s obj
  { s with q := s.q ++ [obj] }

/-- Modelled from the spec: the generic bounded FIFO queue primitive
(src/queue.c is not under src/).  `get` pops the front entry and invokes the
get hook, returning got=1 with the value; with an empty queue it yields
not-got (immediately when `block` is false; after an abort when blocking). -/
def groove_queue_get (s : SinkQ) (block : Bool) : Option BufPtr × SinkQ :=
  match s.q with
  | obj :: rest => (some obj, audioq_get_hook { s with q := rest } obj)
  | [] => (none, s)

/-- `sink_signal_end`: put the end-of-queue sentinel into the sink's queue. -/
def sink_signal_end (s : SinkQ) : SinkQ :=
  groove_queue_put s end_of_q_sentinel

/-- Return codes of `groove_sink_get_buffer`. -/
inductive GetBufferCode
  | YES
  | END
  | NO
deriving DecidableEq

/-- `groove_sink_get_buffer`: delegate to the queue; a popped sentinel means
END with the out-parameter nulled; a popped non-sentinel means YES; not-got
means NO with the out-parameter nulled. -/
def groove_sink_get_buffer (s : SinkQ) (block : Bool) :
    GetBufferCode × BufPtr × SinkQ :=
  match groove_queue_get s block with
  | (some obj, s') =>
      if obj = end_of_q_sentinel then (GetBufferCode.END, none, s')
      else (GetBufferCode.YES, obj, s')
  | (none, s') => (GetBufferCode.NO, none, s')

/-! ## Buffer reference counting (frame_to_groove_buffer, groove_buffer_ref,
groove_buffer_unref) -/

/-- The mutable core of a `GrooveBuffer`: its `ref_count` (an `int`, zeroed
by `av_mallocz`) and whether the decrement-to-zero path has run, releasing
the underlying frame and the buffer. -/
structure BufState where
  ref_count : Int
  freed : Bool
deriving DecidableEq

/-- `frame_to_groove_buffer` allocates with `av_mallocz`, so the new buffer
has `ref_count = 0` and has not been freed. -/
def frame_to_groove_buffer : BufState :=
  { ref_count := 0, freed := false }

/-- `groove_buffer_ref`: increment under the buffer mutex. -/
def groove_buffer_ref (b : BufState) : BufState :=
  { b with ref_count := b.ref_count + 1 }

/-- `groove_buffer_unref`: decrement under the buffer mutex; when the new
count is exactly zero, free the frame and the buffer.  The returned `Bool`
records whether this call freed the buffer. -/
def groove_buffer_unref (b : BufState) : BufState × Bool :=
  let rc := b.ref_count - 1
  let fr := rc = 0
  ({ ref_count := rc, freed := b.freed || fr }, fr)

/-- The fan-out loop of audio_decode_frame, lines 210-220: one
`groove_buffer_ref` per successful `groove_queue_put` into a sink queue
(`k` of them succeed). -/
def ref_per_enqueue : Nat → BufState → BufState
  | 0, b => b
  | k + 1, b => ref_per_enqueue k (groove_buffer_ref b)

/-- The whole producer side for one buffer: construction, one ref per
successful enqueue, then the final ref/unref pair "to trigger cleanup if
there were no refs" (lines 221-223). -/
def producer_fanout (k : Nat) : BufState × Bool :=
  groove_buffer_unref (groove_buffer_ref (ref_per_enqueue k frame_to_groove_buffer))

/-- `j` consumer-side unrefs in sequence; returns the final state and how
many of the unrefs freed the buffer. -/
def consume_unrefs : Nat → BufState → BufState × Nat
  | 0, b => (b, 0)
  | j + 1, b =>
      let (b1, fr) := groove_buffer_unref b
      let (b2, c) := consume_unrefs j b1
      (b2, (if fr then 1 else 0) + c)

/-! ## Volume clamping in init_filter_graph (lines 286-311) -/

/-- The volume-filter section of one graph build: whether a volume node was
created (and with which parameter), and the recorded `filter_volume`. -/
structure VolumeBuild where
  volume_node : Option ℚ
  filter_volume : ℚ
deriving DecidableEq

/-- The volume section of `init_filter_graph`: save `filter_volume = volume`
(unclamped), clamp a copy to [0,1] by the two sequential `if`s, omit the
volume filter when the clamped value equals 1.0, else parameterize the node
with the clamped value. -/
def init_filter_graph_volume (volume : ℚ) : VolumeBuild :=
  let filter_volume := volume
  let vol := volume
  let vol := if vol > 1 then 1 else vol
  let vol := if vol < 0 then 0 else vol
  { volume_node := if vol = 1 then none else some vol,
    filter_volume := filter_volume }

/-- The clamped value the build uses (the same two sequential tests). -/
def clamped_volume (volume : ℚ) : ℚ :=
  let vol := volume
  let vol := if vol > 1 then 1 else vol
  if vol < 0 then 0 else vol

/-! ## Sinks and the sink map (lines 25-35, 409-443, 622-762) -/

/-- `GrooveAudioFormat`: sample rate, channel layout mask, sample format. -/
structure GrooveAudioFormat where
  sample_rate : Int
  channel_layout : Nat
  sample_fmt : Int
deriving DecidableEq

/-- `audio_formats_equal`. -/
def audio_formats_equal (a b : GrooveAudioFormat) : Bool :=
  a.sample_rate = b.sample_rate &&
    a.channel_layout = b.channel_layout &&
    a.sample_fmt = b.sample_fmt

/-- A `GrooveSink` together with the fields of its `GrooveSinkPrivate` that
the engine reads (the queue itself is modelled separately as `SinkQ`). -/
structure Sink where
  sid : Nat
  audio_format : GrooveAudioFormat
  buffer_size : Int
  bytes_per_sec : Int
  min_audioq_size : Int
  audioq_size : Int
  playlist : Option Nat
deriving DecidableEq

/-- One `SinkMap` node: a class of sinks sharing a format, kept as a stack
(`stack_head` first).  In the running code the stack is never empty; an
empty stack makes the source dereference a null `stack_head`. -/
structure SinkMapNode where
  stack : List Sink
deriving DecidableEq

/-- `GroovePlaylistPrivate` fields the claims touch, plus the public
`GroovePlaylist.volume` (`playlist_volume`). -/
structure Engine where
  decode_head : Option Nat
  volume : ℚ
  rebuild_filter_graph_flag : Bool
  sink_map : List SinkMapNode
  sink_map_count : Int
  filter_volume : ℚ
  sent_end_of_q : Bool
  playlist_volume : ℚ
deriving DecidableEq

/-- `every_sink`: traverse classes in list order and each class's stack from
its head, applying `func`; return the first value differing from
`default_value`, else `default_value`. -/
def every_sink (func : Sink → Int) (default_value : Int) :
    List SinkMapNode → Int
  | [] => default_value
  | node :: rest =>
      every_sink_stack func default_value rest node.stack
where
  /-- The inner stack loop, continuing with the remaining classes. -/
  every_sink_stack (func : Sink → Int) (default_value : Int)
      (rest : List SinkMapNode) : List Sink → Int
  | [] => every_sink func default_value rest
  | sink :: stackRest =>
      let value := func sink
      if value ≠ default_value then value
      else every_sink_stack func default_value rest stackRest

/-- `sink_is_full`: `audioq_size >= min_audioq_size` as a C boolean. -/
def sink_is_full (sink : Sink) : Int :=
  if sink.audioq_size ≥ sink.min_audioq_size then 1 else 0

/-- `every_sink_full`. -/
def every_sink_full (m : List SinkMapNode) : Int :=
  every_sink sink_is_full 1 m

/-- The sinks of the map in traversal order (class list order, each stack
from its head) — the order `every_sink` visits them. -/
def sink_order (m : List SinkMapNode) : List Nat :=
  (m.map (fun node => node.stack.map Sink.sid)).flatten

/-- Outcome of a C execution path that may hit `return -1` or undefined
behaviour (a write through a null pointer). -/
inductive CRun (α : Type)
  | ok (a : α)
  | err
  | nullDeref
deriving DecidableEq

/-- The scan loop of `add_sink_to_map`: find the first class whose example
sink (`map_item->stack_head->sink`) has the new sink's format and push the
stack entry there.  Reading `stack_head->sink` of an empty class is a null
dereference. -/
def add_sink_scan (sink : Sink) : List SinkMapNode →
    CRun (Option (List SinkMapNode))
  | [] => CRun.ok none
  | node :: rest =>
      match node.stack with
      | [] => CRun.nullDeref
      | example_sink :: _ =>
          if audio_formats_equal example_sink.audio_format sink.audio_format then
            CRun.ok (some ({ stack := sink :: node.stack } :: rest))
          else
            match add_sink_scan sink rest with
            | CRun.ok none => CRun.ok none
            | CRun.ok (some rest') => CRun.ok (some (node :: rest'))
            | CRun.err => CRun.err
            | CRun.nullDeref => CRun.nullDeref

/-- `add_sink_to_map`, with the two `av_mallocz` results as parameters.
As written, the source stores through each allocation (`stack_entry->sink =
sink`, `map_entry->stack_head = stack_entry`) BEFORE testing it for null, so
a failed allocation is a null-pointer write, not a clean -1.  Note that no
path sets `rebuild_filter_graph_flag`. -/
def add_sink_to_map (alloc_stack_entry alloc_map_entry : Bool)
    (e : Engine) (sink : Sink) : CRun Engine :=
  -- SinkStack *stack_entry = av_mallocz(...); stack_entry->sink = sink;
  if !alloc_stack_entry then CRun.nullDeref
  else
    -- if (!stack_entry) return -1;  -- dead: the write above already ran
    match add_sink_scan sink e.sink_map with
    | CRun.nullDeref => CRun.nullDeref
    | CRun.err => CRun.err
    | CRun.ok (some m') => CRun.ok { e with sink_map := m' }
    | CRun.ok none =>
        -- SinkMap *map_entry = av_mallocz(...); map_entry->stack_head = ...;
        if !alloc_map_entry then CRun.nullDeref
        else
          -- if (!map_entry) { av_free(stack_entry); return -1; }  -- dead
          CRun.ok { e with
            sink_map := { stack := [sink] } :: e.sink_map,
            sink_map_count := e.sink_map_count + 1 }

/-- The stack scan of `remove_sink_from_map`: drop the entry holding `sid`,
or report not-found. -/
def remove_from_stack (sid : Nat) : List Sink → Option (List Sink)
  | [] => none
  | sink :: rest =>
      if sink.sid = sid then some rest
      else (remove_from_stack sid rest).map (fun r => sink :: r)

/-- `remove_sink_from_map`: scan classes; unlink the sink from its class's
stack; if the stack becomes empty, unlink the class and decrement
`sink_map_count`.  Returns -1 when the sink is in no class.  No path sets
`rebuild_filter_graph_flag`. -/
def remove_sink_from_map (e : Engine) (sid : Nat) : Engine × Int :=
  match remove_map_loop sid e.sink_map with
  | none => (e, -1)
  | some (m', removedClass) =>
      ({ e with sink_map := m',
                sink_map_count :=
                  if removedClass then e.sink_map_count - 1
                  else e.sink_map_count }, 0)
where
  /-- The outer class loop; also reports whether a class was deleted. -/
  remove_map_loop (sid : Nat) :
      List SinkMapNode → Option (List SinkMapNode × Bool)
  | [] => none
  | node :: rest =>
      match remove_from_stack sid node.stack with
      | some [] => some (rest, true)
      | some stack' => some ({ stack := stack' } :: rest, false)
      | none =>
          (remove_map_loop sid rest).map
            (fun r => (node :: r.1, r.2))

/-- `groove_sink_attach`: compute `bytes_per_sec` and `min_audioq_size` from
the format (the av helpers for channel count and bytes-per-sample are
external; their results are parameters), insert into the sink map under the
mutex, then reset the queue and set the back-reference.  On `add_sink_to_map`
failure, return the error ("unable to attach device: out of memory"). -/
def groove_sink_attach (channel_count bytes_per_sample : Int)
    (alloc_stack_entry alloc_map_entry : Bool)
    (e : Engine) (sink : Sink) (plid : Nat) : CRun (Engine × Sink) :=
  let sink := { sink with
    bytes_per_sec :=
      channel_count * sink.audio_format.sample_rate * bytes_per_sample,
    min_audioq_size := sink.buffer_size * channel_count * bytes_per_sample }
  match add_sink_to_map alloc_stack_entry alloc_map_entry e sink with
  | CRun.ok e' => CRun.ok (e', { sink with playlist := some plid })
  | CRun.err => CRun.err
  | CRun.nullDeref => CRun.nullDeref

/-- `groove_sink_detach`: fail with -1 when there is no back-reference;
otherwise abort/flush the queue (queue side modelled separately), remove the
sink from the map under the mutex, clear the back-reference, and return the
removal result. -/
def groove_sink_detach (e : Engine) (sink : Sink) : Engine × Sink × Int :=
  match sink.playlist with
  | none => (e, sink, -1)
  | some _ =>
      let (e', err) := remove_sink_from_map e sink.sid
      (e', { sink with playlist := none }, err)

/-! ## The decode worker loop body (decode_thread, lines 573-620) -/

/-- Observable actions of one worker iteration. -/
inductive WEvent
  | sentinel (sid : Nat)
  | decodeCall (item : Nat)
  | seekArm (item : Nat)
  | sleep
deriving DecidableEq

/-- One playlist item as the worker reads it: its gain and its successor. -/
structure ItemView where
  gain : ℚ
  next : Option Nat
deriving DecidableEq

/-- One iteration of the `decode_thread` while-loop body (reached with
`abort_request` clear), under `decode_head_mutex`.  `items` is the playlist
item table; `decode_fail` is the sign of `decode_one_frame`'s return value
(`true` = negative).  Events record sentinel puts (via
`every_sink_signal_end`, in `every_sink` traversal order), the call to
`decode_one_frame`, the arming of the next file's seek, and `SDL_Delay`. -/
def decode_thread_iter (items : Nat → ItemView) (decode_fail : Bool)
    (e : Engine) : Engine × List WEvent :=
  match e.decode_head with
  | none =>
      if !e.sent_end_of_q then
        ({ e with sent_end_of_q := true },
         (sink_order e.sink_map).map WEvent.sentinel ++ [WEvent.sleep])
      else (e, [WEvent.sleep])
  | some h =>
      let e := { e with sent_end_of_q := false }
      if every_sink_full e.sink_map ≠ 0 then
        (e, [WEvent.sleep])
      else
        let it := items h
        let e := { e with volume := it.gain * e.playlist_volume }
        if decode_fail then
          match it.next with
          | some n => ({ e with decode_head := some n },
                       [WEvent.decodeCall h, WEvent.seekArm n])
          | none => ({ e with decode_head := none }, [WEvent.decodeCall h])
        else (e, [WEvent.decodeCall h])

/-- A run of successive worker iterations, one `decode_fail` oracle per
iteration, concatenating the event traces. -/
def decode_thread_run (items : Nat → ItemView) :
    List Bool → Engine → Engine × List WEvent
  | [], e => (e, [])
  | f :: fs, e =>
      let (e1, evs1) := decode_thread_iter items f e
      let (e2, evs2) := decode_thread_run items fs e1
      (e2, evs1 ++ evs2)

/-- Whether an event is a sentinel delivery. -/
def isSentinelEv : WEvent → Bool
  | WEvent.sentinel _ => true
  | _ => false

/-- Whether an event is a `decode_one_frame` call. -/
def isDecodeEv : WEvent → Bool
  | WEvent.decodeCall _ => true
  | _ => false

/-! ## The playlist item list (groove_playlist_insert / remove / clear /
count, lines 876-987) -/

/-- A `GroovePlaylistItem`: borrowed file reference, gain, and the two
links. -/
structure PItem where
  file : Nat
  gain : ℚ
  prev : Option Nat
  next : Option Nat
deriving DecidableEq

/-- The item heap: id to live `GroovePlaylistItem` cell.  `av_free` deletes
the cell, so a later read through a stale pointer is detectable. -/
abbrev Heap := List (Nat × PItem)

/-- Memory faults of a run: a dereference of a null/freed pointer, or loop
fuel exhaustion (never hit on well-formed finite lists). -/
inductive MemErr
  | badDeref
  | fuelOut
deriving DecidableEq

/-- Read an item cell. -/
def hget : Heap → Nat → Option PItem
  | [], _ => none
  | (k, v) :: rest, i => if k = i then some v else hget rest i

/-- Write an existing item cell through a pointer; writing a missing cell is
a bad dereference. -/
def hmodHeap : Heap → Nat → (PItem → PItem) → Option Heap
  | [], _, _ => none
  | (k, v) :: rest, i, f =>
      if k = i then some ((k, f v) :: rest)
      else (hmodHeap rest i f).map (fun r => (k, v) :: r)

/-- `av_free` of an item cell. -/
def hfree : Heap → Nat → Heap
  | [], _ => []
  | (k, v) :: rest, i => if k = i then rest else (k, v) :: hfree rest i

/-- A file's seek request cell (`seek_pos`, `seek_flush`). -/
structure SeekCell where
  seek_pos : Int
  seek_flush : Bool
deriving DecidableEq

/-- Set a file's seek cell. -/
def sset : List (Nat × SeekCell) → Nat → SeekCell → List (Nat × SeekCell)
  | [], f, c => [(f, c)]
  | (k, v) :: rest, f, c =>
      if k = f then (k, c) :: rest else (k, v) :: sset rest f c

/-- The playlist list state: the item heap, `head`/`tail`, the engine's
`decode_head`, and the per-file seek cells insert touches. -/
structure PState where
  heap : Heap
  head : Option Nat
  tail : Option Nat
  decode_head : Option Nat
  seeks : List (Nat × SeekCell)
deriving DecidableEq

/-- Read an item through a pointer, faulting when the cell is absent
(freed). -/
def hgetE (s : PState) (i : Nat) : Except MemErr PItem :=
  match hget s.heap i with
  | some it => Except.ok it
  | none => Except.error MemErr.badDeref

/-- Write an item through a pointer, faulting when the cell is absent. -/
def hmod (s : PState) (i : Nat) (f : PItem → PItem) : Except MemErr PState :=
  match hmodHeap s.heap i f with
  | some h => Except.ok { s with heap := h }
  | none => Except.error MemErr.badDeref

/-- Item lookup used by specifications. -/
def itemAt (s : PState) (i : Nat) : Option PItem := hget s.heap i

/-- `groove_playlist_insert`: allocate the item (fresh id `newId`, fields
`file`, `next`, `gain` set, rest zeroed), then under `decode_head_mutex`:
if `next` is given, splice before it — note that when `next` was the head
the source only sets `playlist->head = item` and never writes
`next->prev = item`; if the playlist is empty, become head, tail and
`decode_head` and arm the file's seek to 0 non-flushing; else append to
tail. -/
def groove_playlist_insert (s : PState) (newId : Nat) (file : Nat)
    (gain : ℚ) (next : Option Nat) : Except MemErr PState :=
  let item : PItem := { file := file, gain := gain, prev := none, next := next }
  let s := { s with heap := (newId, item) :: s.heap }
  match next with
  | some nid => do
      let nitem ← hgetE s nid
      match nitem.prev with
      | some pid => do
          -- item->prev = next->prev; item->prev->next = item; next->prev = item
          let s ← hmod s newId (fun it => { it with prev := some pid })
          let s ← hmod s pid (fun it => { it with next := some newId })
          hmod s nid (fun it => { it with prev := some newId })
      | none =>
          -- playlist->head = item;   (no write to next->prev)
          pure { s with head := some newId }
  | none =>
      match s.head with
      | none =>
          -- head = tail = item; decode_head = head; seek_pos = 0, no flush
          pure { s with head := some newId, tail := some newId,
                        decode_head := some newId,
                        seeks := sset s.seeks file { seek_pos := 0, seek_flush := false } }
      | some _ =>
          match s.tail with
          | some tid => do
              -- item->prev = tail; tail->next = item; tail = item
              let s ← hmod s newId (fun it => { it with prev := some tid })
              let s ← hmod s tid (fun it => { it with next := some newId })
              pure { s with tail := some newId }
          | none => Except.error MemErr.badDeref

/-- `groove_playlist_remove`: under the mutex, advance `decode_head` past
the item when it is current, unlink (each `item->prev`/`item->next` read
goes through the pointer again, as in the source), purge the sink queues
(modelled on the sink-queue side), then `av_free(item)`. -/
def groove_playlist_remove (s : PState) (iid : Nat) : Except MemErr PState := do
  let it0 ← hgetE s iid
  let s := if s.decode_head = some iid then { s with decode_head := it0.next }
           else s
  let it1 ← hgetE s iid
  let s ← match it1.prev with
    | some pid => hmod s pid (fun it => { it with next := it1.next })
    | none => pure { s with head := it1.next }
  let it2 ← hgetE s iid
  let s ← match it2.next with
    | some nid => hmod s nid (fun it => { it with prev := it2.prev })
    | none => pure { s with tail := it2.prev }
  pure { s with heap := hfree s.heap iid }

/-- The loop of `groove_playlist_clear`: `remove(node)` then
`node = node->next` — the source reads `next` from the item that `remove`
just freed. -/
def groove_playlist_clear_loop (s : PState) :
    Nat → Option Nat → Except MemErr PState
  | _, none => Except.ok s
  | 0, some _ => Except.error MemErr.fuelOut
  | fuel + 1, some nid => do
      let s' ← groove_playlist_remove s nid
      let it ← hgetE s' nid
      groove_playlist_clear_loop s' fuel it.next

/-- `groove_playlist_clear`: start from `head`; empty playlist returns
immediately. -/
def groove_playlist_clear (fuel : Nat) (s : PState) : Except MemErr PState :=
  match s.head with
  | none => Except.ok s
  | some nid => groove_playlist_clear_loop s fuel (some nid)

/-- The loop of `groove_playlist_count`. -/
def groove_playlist_count_loop (s : PState) :
    Nat → Option Nat → Int → Except MemErr Int
  | _, none, acc => Except.ok acc
  | 0, some _, _ => Except.error MemErr.fuelOut
  | fuel + 1, some nid, acc => do
      let it ← hgetE s nid
      groove_playlist_count_loop s fuel it.next (acc + 1)

/-- `groove_playlist_count`: traverse from `head` counting items. -/
def groove_playlist_count (fuel : Nat) (s : PState) : Except MemErr Int :=
  groove_playlist_count_loop s fuel s.head 0

/-- The doubly-linked-list invariant of the claim: the head item has no
`prev`, the tail item has no `next`, and for live items a and b,
`a.next == b` iff `b.prev == a`. -/
def dll_inv (s : PState) : Prop :=
  (∀ hid it, s.head = some hid → itemAt s hid = some it → it.prev = none) ∧
  (∀ tid it, s.tail = some tid → itemAt s tid = some it → it.next = none) ∧
  (∀ a b ita itb, itemAt s a = some ita → itemAt s b = some itb →
      (ita.next = some b ↔ itb.prev = some a))

/-- The empty playlist as `groove_playlist_create` leaves it. -/
def pl_empty : PState :=
  { heap := [], head := none, tail := none, decode_head := none, seeks := [] }

/-! ## Concrete states used by the evaluations and witnesses -/

/-- An example target format: s16 stereo 44100. -/
def fmt_ex : GrooveAudioFormat :=
  { sample_rate := 44100, channel_layout := 3, sample_fmt := 1 }

/-- A freshly created sink (default `buffer_size` 8192), not yet attached. -/
def sink_ex : Sink :=
  { sid := 7, audio_format := fmt_ex, buffer_size := 8192, bytes_per_sec := 0,
    min_audioq_size := 0, audioq_size := 0, playlist := none }

/-- A freshly created engine: both volumes 1.0, no sinks, no items, and
`rebuild_filter_graph_flag` zeroed by `av_mallocz`. -/
def engine_fresh : Engine :=
  { decode_head := none, volume := 1, rebuild_filter_graph_flag := false,
    sink_map := [], sink_map_count := 0, filter_volume := 1,
    sent_end_of_q := false, playlist_volume := 1 }

/-- An engine with the example sink attached as its only class. -/
def engine_one_sink : Engine :=
  { engine_fresh with sink_map := [{ stack := [sink_ex] }], sink_map_count := 1 }

/-- An engine with an item queued (`decode_head` set) and no sinks. -/
def engine_pending : Engine :=
  { engine_fresh with decode_head := some 3 }

/-- A trivial item table for worker witnesses. -/
def items_triv : Nat → ItemView := fun _ => { gain := 1, next := none }

/-- The playlist after inserting item 0 (file 10) into the empty playlist. -/
def pl_one : PState :=
  { heap := [(0, { file := 10, gain := 1, prev := none, next := none })],
    head := some 0, tail := some 0, decode_head := some 0,
    seeks := [(10, { seek_pos := 0, seek_flush := false })] }

/-- The playlist after then inserting item 1 (file 11) before the head:
the state the source actually produces, with item 0's `prev` still none. -/
def pl_two : PState :=
  { heap := [(1, { file := 11, gain := 1, prev := none, next := some 0 }),
             (0, { file := 10, gain := 1, prev := none, next := none })],
    head := some 1, tail := some 0, decode_head := some 0,
    seeks := [(10, { seek_pos := 0, seek_flush := false })] }

/-! ## Helper lemmas -/

theorem ref_per_enqueue_spec (k : Nat) (b : BufState) :
    ref_per_enqueue k b = { ref_count := b.ref_count + k, freed := b.freed } := by
  induction k generalizing b with
  | zero => simp [ref_per_enqueue]
  | succ n ih =>
      simp [ref_per_enqueue, groove_buffer_ref, ih]
      ring

theorem producer_fanout_zero : producer_fanout 0 = ({ ref_count := 0, freed := true }, true) := by
  decide

theorem producer_fanout_pos (k : Nat) (hk : 1 ≤ k) :
    producer_fanout k = ({ ref_count := (k : Int), freed := false }, false) := by
  unfold producer_fanout groove_buffer_ref groove_buffer_unref
  rw [ref_per_enqueue_spec]
  simp [frame_to_groove_buffer]
  omega

theorem consume_unrefs_lt (j : Nat) (n : Int) (hj : (j : Int) < n) :
    consume_unrefs j { ref_count := n, freed := false } =
      ({ ref_count := n - j, freed := false }, 0) := by
  induction j generalizing n with
  | zero => simp [consume_unrefs]
  | succ m ih =>
      have h1 : ¬(n - 1 = 0) := by omega
      have hj2 : (m : Int) < n - 1 := by push_cast at hj; omega
      simp [consume_unrefs, groove_buffer_unref, decide_eq_false h1, ih _ hj2]
      omega

theorem consume_unrefs_last (j : Nat) (hj : 1 ≤ j) :
    consume_unrefs j { ref_count := (j : Int), freed := false } =
      ({ ref_count := 0, freed := true }, 1) := by
  induction j with
  | zero => omega
  | succ m ih =>
      rcases Nat.eq_zero_or_pos m with hm | hm
      · subst hm; decide
      · have h1 : ¬(((m : Nat) + 1 : Nat) : Int) - 1 = 0 := by push_cast; omega
        have h2 : (((m : Nat) + 1 : Nat) : Int) - 1 = (m : Int) := by push_cast; ring
        have h3 : ¬(m = 0) := by omega
        simp [consume_unrefs, groove_buffer_unref, decide_eq_false h1, h2, h3,
          decide_eq_false h3, ih hm]

theorem every_sink_stack_full (rest : List SinkMapNode) (stack : List Sink)
    (h : every_sink sink_is_full 1 rest =
      if ∃ node ∈ rest, ∃ sink ∈ node.stack,
        sink.audioq_size < sink.min_audioq_size then 0 else 1) :
    every_sink.every_sink_stack sink_is_full 1 rest stack =
      if (∃ sink ∈ stack, sink.audioq_size < sink.min_audioq_size) ∨
          (∃ node ∈ rest, ∃ sink ∈ node.stack,
            sink.audioq_size < sink.min_audioq_size)
      then 0 else 1 := by
  induction stack with
  | nil => simpa [every_sink.every_sink_stack] using h
  | cons s t ih =>
      by_cases hs : s.audioq_size < s.min_audioq_size
      · have hv : sink_is_full s = 0 := by simp [sink_is_full]; omega
        simp [every_sink.every_sink_stack, hv, hs]
      · have hv : sink_is_full s = 1 := by simp [sink_is_full]; omega
        simp only [every_sink.every_sink_stack, hv, ne_eq, not_true_eq_false,
          Bool.false_eq_true, if_false, ih]
        simp [hs]

theorem every_sink_full_eq (m : List SinkMapNode) :
    every_sink_full m =
      if ∃ node ∈ m, ∃ sink ∈ node.stack,
        sink.audioq_size < sink.min_audioq_size then 0 else 1 := by
  induction m with
  | nil => simp [every_sink_full, every_sink]
  | cons node rest ih =>
      have h := every_sink_stack_full rest node.stack ih
      simp only [every_sink_full, every_sink] at h ⊢
      rw [h]
      congr 1
      simp

theorem decode_thread_run_idle (items : Nat → ItemView) (fails : List Bool)
    (e : Engine) (hhead : e.decode_head = none) (hsent : e.sent_end_of_q = true) :
    decode_thread_run items fails e =
      (e, List.replicate fails.length WEvent.sleep) := by
  induction fails with
  | nil => rfl
  | cons f fs ih =>
      simp [decode_thread_run, decode_thread_iter, hhead, hsent, ih,
        List.replicate_succ]

theorem filter_sentinel_map (l : List Nat) :
    (l.map WEvent.sentinel).filter isSentinelEv = l.map WEvent.sentinel := by
  induction l with
  | nil => rfl
  | cons a t ih => simp [isSentinelEv, ih]

theorem filter_decode_map_sentinel (l : List Nat) :
    (l.map WEvent.sentinel).filter isDecodeEv = [] := by
  induction l with
  | nil => rfl
  | cons a t ih => simp [isDecodeEv, ih]

theorem count_sleep_map_sentinel (l : List Nat) :
    (l.map WEvent.sentinel).count WEvent.sleep = 0 := by
  induction l with
  | nil => rfl
  | cons a t ih => simp [List.count_cons, ih]

/-! ## Claim theorems -/

/-- C4: a Buffer is constructed by `frame_to_groove_buffer` with
`ref_count = 0`; after `k` successful enqueues (one `groove_buffer_ref`
each) and the final ref/unref pair, the buffer is freed by that pair iff
`k = 0`; otherwise `ref_count = k` remains, no proper prefix of the `k`
outstanding unrefs frees it, and the `k`-th unref frees it — so over the
whole lifetime the buffer and its frame are released exactly once. -/
theorem groove_buffer_lifecycle (k : Nat) :
    frame_to_groove_buffer.ref_count = 0 ∧
    frame_to_groove_buffer.freed = false ∧
    ((producer_fanout k).2 = true ↔ k = 0) ∧
    ((producer_fanout k).1.freed = true ↔ k = 0) ∧
    (producer_fanout k).1.ref_count = (k : Int) ∧
    (∀ j, j < k →
        consume_unrefs j (producer_fanout k).1 =
          ({ ref_count := (k : Int) - j, freed := false }, 0)) ∧
    (1 ≤ k →
        consume_unrefs k (producer_fanout k).1 =
          ({ ref_count := 0, freed := true }, 1)) := by
  rcases Nat.eq_zero_or_pos k with hk | hk
  · subst hk
    refine ⟨rfl, rfl, by decide, by decide, by decide, ?_, ?_⟩
    · intro j hj; omega
    · intro hj; omega
  · rw [producer_fanout_pos k hk]
    refine ⟨rfl, rfl, by simp; omega, by simp; omega, rfl, ?_, ?_⟩
    · intro j hj
      exact consume_unrefs_lt j (k : Int) (by omega)
    · intro _
      exact consume_unrefs_last k hk

/-- C4 witness at k = 2. -/
theorem groove_buffer_lifecycle_witness :
    frame_to_groove_buffer.ref_count = 0 ∧
    frame_to_groove_buffer.freed = false ∧
    ((producer_fanout 2).2 = true ↔ 2 = 0) ∧
    ((producer_fanout 2).1.freed = true ↔ 2 = 0) ∧
    (producer_fanout 2).1.ref_count = (2 : Int) ∧
    (∀ j, j < 2 →
        consume_unrefs j (producer_fanout 2).1 =
          ({ ref_count := (2 : Int) - j, freed := false }, 0)) ∧
    (1 ≤ 2 →
        consume_unrefs 2 (producer_fanout 2).1 =
          ({ ref_count := 0, freed := true }, 1)) :=
  groove_buffer_lifecycle 2

/-- C7: every graph build records `filter_volume` as the unclamped effective
volume, clamps the working copy into [0, 1] (out-of-range values accepted,
in-range values unchanged), and creates the volume node exactly when the
clamped value differs from 1.0, parameterized with the clamped value. -/
theorem init_filter_graph_volume_clamped (v : ℚ) :
    0 ≤ clamped_volume v ∧
    clamped_volume v ≤ 1 ∧
    (0 ≤ v → v ≤ 1 → clamped_volume v = v) ∧
    ((init_filter_graph_volume v).volume_node = none ↔ clamped_volume v = 1) ∧
    (∀ c, (init_filter_graph_volume v).volume_node = some c →
        c = clamped_volume v) ∧
    (init_filter_graph_volume v).filter_volume = v := by
  unfold init_filter_graph_volume clamped_volume
  refine ⟨?_, ?_, ?_, ?_, ?_, rfl⟩ <;> simp only []
  · split_ifs <;> linarith
  · split_ifs <;> linarith
  · intro h0 h1; split_ifs <;> linarith
  · split_ifs <;> simp_all
  · intro c; split_ifs <;> simp_all

/-- C7 witness at v = 3/2 (out of range: accepted, clamped to 1, node
omitted) — the theorem applied at a concrete input. -/
theorem init_filter_graph_volume_clamped_witness :
    0 ≤ clamped_volume (3 / 2) ∧
    clamped_volume (3 / 2) ≤ 1 ∧
    (0 ≤ (3 / 2 : ℚ) → (3 / 2 : ℚ) ≤ 1 → clamped_volume (3 / 2) = 3 / 2) ∧
    ((init_filter_graph_volume (3 / 2)).volume_node = none ↔
        clamped_volume (3 / 2) = 1) ∧
    (∀ c, (init_filter_graph_volume (3 / 2)).volume_node = some c →
        c = clamped_volume (3 / 2)) ∧
    (init_filter_graph_volume (3 / 2)).filter_volume = 3 / 2 :=
  init_filter_graph_volume_clamped (3 / 2)

/-- C8: `groove_sink_get_buffer` is the tri-state map of the queue result:
a popped non-sentinel value yields YES with that buffer, a popped sentinel
yields END with the out-parameter nulled, and a get that yields nothing —
in particular a non-blocking get on an empty queue — yields NO with the
out-parameter nulled. -/
theorem groove_sink_get_buffer_tristate (s : SinkQ) (block : Bool) :
    (∀ v rest, s.q = v :: rest → v ≠ end_of_q_sentinel →
        groove_sink_get_buffer s block =
          (GetBufferCode.YES, v, audioq_get_hook { s with q := rest } v)) ∧
    (∀ rest, s.q = end_of_q_sentinel :: rest →
        groove_sink_get_buffer s block =
          (GetBufferCode.END, none,
            audioq_get_hook { s with q := rest } end_of_q_sentinel)) ∧
    (s.q = [] → groove_sink_get_buffer s block = (GetBufferCode.NO, none, s)) := by
  refine ⟨?_, ?_, ?_⟩
  · intro v rest hq hv
    simp [groove_sink_get_buffer, groove_queue_get, hq, hv]
  · intro rest hq
    simp [groove_sink_get_buffer, groove_queue_get, hq]
  · intro hq
    simp [groove_sink_get_buffer, groove_queue_get, hq]

/-- C8 witness: the three cases at concrete queues. -/
theorem groove_sink_get_buffer_tristate_witness :
    (groove_sink_get_buffer
        { q := [some { bid := 1, size := 4 }], audioq_buf_count := 1, audioq_size := 4 } false =
      (GetBufferCode.YES, some { bid := 1, size := 4 },
        audioq_get_hook
          { q := ([] : List BufPtr), audioq_buf_count := 1, audioq_size := 4 }
          (some { bid := 1, size := 4 }))) ∧
    (groove_sink_get_buffer
        { q := [end_of_q_sentinel], audioq_buf_count := 0, audioq_size := 0 } true =
      (GetBufferCode.END, none,
        audioq_get_hook
          { q := ([] : List BufPtr), audioq_buf_count := 0, audioq_size := 0 }
          end_of_q_sentinel)) ∧
    (groove_sink_get_buffer
        { q := ([] : List BufPtr), audioq_buf_count := 0, audioq_size := 0 } false =
      (GetBufferCode.NO, none,
        { q := ([] : List BufPtr), audioq_buf_count := 0, audioq_size := 0 })) :=
  ⟨(groove_sink_get_buffer_tristate
      { q := [some { bid := 1, size := 4 }], audioq_buf_count := 1, audioq_size := 4 } false).1
      (some { bid := 1, size := 4 }) [] rfl (by decide),
   (groove_sink_get_buffer_tristate
      { q := [end_of_q_sentinel], audioq_buf_count := 0, audioq_size := 0 } true).2.1
      [] rfl,
   (groove_sink_get_buffer_tristate
      { q := ([] : List BufPtr), audioq_buf_count := 0, audioq_size := 0 } false).2.2 rfl⟩

/-- C10: the end-of-queue sentinel is the null pointer (`static ... = NULL`,
never reassigned); `sink_signal_end` enqueues exactly that null into the
sink queue while the put hook leaves both counters untouched; the put/get
hooks are the identity precisely on the null value; and
`groove_sink_get_buffer` answers END precisely when the dequeued value is
null — so any null entry in a sink queue reads as end-of-playlist. -/
theorem end_of_q_sentinel_is_null (s : SinkQ) (obj : BufPtr) (block : Bool) :
    end_of_q_sentinel = none ∧
    sink_signal_end s = { s with q := s.q ++ [none] } ∧
    (audioq_put_hook s obj = s ↔ obj = none) ∧
    (audioq_get_hook s obj = s ↔ obj = none) ∧
    (∀ v rest, s.q = v :: rest →
        ((groove_sink_get_buffer s block).1 = GetBufferCode.END ↔ v = none)) := by
  refine ⟨rfl, ?_, ?_, ?_, ?_⟩
  · simp [sink_signal_end, groove_queue_put, audioq_put_hook, end_of_q_sentinel]
  · constructor
    · intro heq
      by_contra hobj
      have : s.audioq_buf_count + 1 = s.audioq_buf_count := by
        have := congrArg SinkQ.audioq_buf_count heq
        simp only [audioq_put_hook, end_of_q_sentinel, hobj] at this
        simp at this
      omega
    · intro hobj
      simp [audioq_put_hook, end_of_q_sentinel, hobj]
  · constructor
    · intro heq
      by_contra hobj
      have : s.audioq_buf_count - 1 = s.audioq_buf_count := by
        have := congrArg SinkQ.audioq_buf_count heq
        simp only [audioq_get_hook, end_of_q_sentinel, hobj] at this
        simp at this
      omega
    · intro hobj
      simp [audioq_get_hook, end_of_q_sentinel, hobj]
  · intro v rest hq
    rcases v with _ | b
    · simp [groove_sink_get_buffer, groove_queue_get, hq, end_of_q_sentinel]
    · simp [groove_sink_get_buffer, groove_queue_get, hq, end_of_q_sentinel]

/-- C10 witness at a concrete queue holding a real buffer then a null. -/
theorem end_of_q_sentinel_is_null_witness :
    end_of_q_sentinel = none ∧
    sink_signal_end { q := [some { bid := 2, size := 8 }], audioq_buf_count := 1, audioq_size := 8 } =
      { q := [some { bid := 2, size := 8 }] ++ [none], audioq_buf_count := 1, audioq_size := 8 } ∧
    (audioq_put_hook { q := [some { bid := 2, size := 8 }], audioq_buf_count := 1, audioq_size := 8 }
        (some { bid := 3, size := 16 }) =
      { q := [some { bid := 2, size := 8 }], audioq_buf_count := 1, audioq_size := 8 } ↔
      (some { bid := 3, size := 16 } : BufPtr) = none) ∧
    (audioq_get_hook { q := [some { bid := 2, size := 8 }], audioq_buf_count := 1, audioq_size := 8 }
        (some { bid := 3, size := 16 }) =
      { q := [some { bid := 2, size := 8 }], audioq_buf_count := 1, audioq_size := 8 } ↔
      (some { bid := 3, size := 16 } : BufPtr) = none) ∧
    (∀ v rest,
        ({ q := [some { bid := 2, size := 8 }], audioq_buf_count := 1, audioq_size := 8 } : SinkQ).q =
          v :: rest →
        ((groove_sink_get_buffer
            { q := [some { bid := 2, size := 8 }], audioq_buf_count := 1, audioq_size := 8 }
            false).1 = GetBufferCode.END ↔ v = none)) :=
  end_of_q_sentinel_is_null
    { q := [some { bid := 2, size := 8 }], audioq_buf_count := 1, audioq_size := 8 }
    (some { bid := 3, size := 16 }) false

/-- C1 (evaluation of the code at the failing input): attaching a sink to a
fresh playlist succeeds and creates its format class, and detaching it
removes the class again — but `rebuild_filter_graph_flag` is still clear
after both, because no statement in playlist.c ever sets it (it is only
cleared, in `init_filter_graph`). -/
theorem attach_detach_leave_rebuild_flag_clear :
    ∃ p : Engine × Sink,
      groove_sink_attach 2 2 true true engine_fresh sink_ex 55 = CRun.ok p ∧
      p.1.rebuild_filter_graph_flag = false ∧
      p.1.sink_map_count = 1 ∧
      p.2.playlist = some 55 ∧
      (groove_sink_detach p.1 p.2).2.2 = 0 ∧
      (groove_sink_detach p.1 p.2).1.rebuild_filter_graph_flag = false ∧
      (groove_sink_detach p.1 p.2).1.sink_map_count = 0 := by
  refine ⟨_, rfl, ?_, ?_, ?_, ?_, ?_, ?_⟩ <;> decide

/-- C1 (the general fact behind the evaluation): neither a successful
`add_sink_to_map` nor `remove_sink_from_map` changes
`rebuild_filter_graph_flag`. -/
theorem sink_map_ops_preserve_rebuild_flag (e e1 : Engine) (sink : Sink)
    (a1 a2 : Bool) (sid : Nat)
    (hadd : add_sink_to_map a1 a2 e sink = CRun.ok e1) :
    e1.rebuild_filter_graph_flag = e.rebuild_filter_graph_flag ∧
    (remove_sink_from_map e sid).1.rebuild_filter_graph_flag =
      e.rebuild_filter_graph_flag := by
  constructor
  · unfold add_sink_to_map at hadd
    rcases a1 with _ | _
    · simp at hadd
    · simp only [Bool.not_true, Bool.false_eq_true, if_false] at hadd
      rcases hscan : add_sink_scan sink e.sink_map with r | _ | _
      all_goals rw [hscan] at hadd
      · rcases r with _ | m'
        · rcases a2 with _ | _
          · simp at hadd
          · simp at hadd
            subst hadd
            rfl
        · simp at hadd
          subst hadd
          rfl
      · simp at hadd
      · simp at hadd
  · unfold remove_sink_from_map
    rcases hrm : remove_sink_from_map.remove_map_loop sid e.sink_map with _ | r
    · simp
    · simp

/-- C1 general-fact witness: the attach from the evaluation above. -/
theorem sink_map_ops_preserve_rebuild_flag_witness :
    ∃ e1 : Engine,
      add_sink_to_map true true engine_fresh sink_ex = CRun.ok e1 ∧
      (e1.rebuild_filter_graph_flag = engine_fresh.rebuild_filter_graph_flag ∧
        (remove_sink_from_map engine_fresh 7).1.rebuild_filter_graph_flag =
          engine_fresh.rebuild_filter_graph_flag) := by
  refine ⟨_, rfl, sink_map_ops_preserve_rebuild_flag engine_fresh _ sink_ex true true 7 rfl⟩

/-- C5 (evaluation of the code at the failing input): when the
`stack_entry` allocation fails, `add_sink_to_map` — and hence
`groove_sink_attach` — stores through the null allocation
(`stack_entry->sink = sink` runs before `if (!stack_entry)`), instead of
failing cleanly with OutOfMemory; likewise for the `map_entry` allocation
on the new-format path (`map_entry->stack_head = stack_entry` runs before
`if (!map_entry)`). -/
theorem add_sink_to_map_derefs_failed_alloc :
    add_sink_to_map false true engine_fresh sink_ex = CRun.nullDeref ∧
    groove_sink_attach 2 2 false true engine_fresh sink_ex 55 = CRun.nullDeref ∧
    add_sink_to_map true false engine_fresh sink_ex = CRun.nullDeref ∧
    groove_sink_attach 2 2 true false engine_fresh sink_ex 55 = CRun.nullDeref := by
  decide

/-- C2 (evaluation of the code at the failing input): inserting item 1
before the current head (item 0) of a one-item playlist takes the
`next->prev == NULL` branch, which sets `playlist->head` but never writes
`next->prev`; the result has `head = 1`, item 1 with `next = 0`, yet item 0
still with `prev = none`, so the pair law `a.next == b iff b.prev == a` of
the doubly-linked-list invariant fails. -/
theorem insert_before_head_leaves_stale_prev :
    groove_playlist_insert pl_empty 0 10 1 none = Except.ok pl_one ∧
    groove_playlist_insert pl_one 1 11 1 (some 0) = Except.ok pl_two ∧
    pl_two.head = some 1 ∧
    itemAt pl_two 1 = some { file := 11, gain := 1, prev := none, next := some 0 } ∧
    itemAt pl_two 0 = some { file := 10, gain := 1, prev := none, next := none } ∧
    ¬dll_inv pl_two := by
  refine ⟨by decide, by decide, rfl, by decide, by decide, fun hinv => ?_⟩
  have h := hinv.2.2 1 0
    { file := 11, gain := 1, prev := none, next := some 0 }
    { file := 10, gain := 1, prev := none, next := none }
    (by decide) (by decide)
  exact absurd (h.mp rfl) (by decide)

/-- C6 (evaluation of the code at the failing input): on a playlist with
one item, `groove_playlist_clear` removes the item and then evaluates
`node->next` on the cell `groove_playlist_remove` just freed — a read of
freed memory, so clear-then-count never gets to return 0 in a faithful
memory model.  The counting side is fine: inserting 1 and 3 items yields
counts 1 and 3. -/
theorem clear_reads_freed_item :
    groove_playlist_clear 5 pl_one = Except.error MemErr.badDeref ∧
    pl_one.head ≠ none ∧
    groove_playlist_count 5 pl_one = Except.ok 1 ∧
    (∃ s1 s2 s3 : PState,
      groove_playlist_insert pl_empty 0 10 1 none = Except.ok s1 ∧
      groove_playlist_insert s1 1 11 1 none = Except.ok s2 ∧
      groove_playlist_insert s2 2 12 1 none = Except.ok s3 ∧
      groove_playlist_count 5 s3 = Except.ok 3) := by
  refine ⟨by decide, by decide, by decide, ⟨_, _, _, rfl, rfl, rfl, by decide⟩⟩

/-- C3: while `decode_head` is none, any non-empty run of worker iterations
starting with `sent_end_of_q` clear delivers the end-of-queue sentinel to
every attached sink exactly once (in sink-map traversal order), performs no
`decode_one_frame` call in that span (so every sentinel precedes any later
production), keeps polling (one `SDL_Delay(NOOP_DELAY)` per iteration), and
leaves `sent_end_of_q` set with `decode_head` still none.  Moreover any
iteration that sees `decode_head` non-none clears `sent_end_of_q` and emits
no sentinel. -/
theorem decode_thread_end_of_q (items : Nat → ItemView) (fails : List Bool)
    (e : Engine) (hne : fails ≠ []) (hhead : e.decode_head = none)
    (hsent : e.sent_end_of_q = false) :
    (decode_thread_run items fails e).1.decode_head = none ∧
    (decode_thread_run items fails e).1.sent_end_of_q = true ∧
    (decode_thread_run items fails e).2.filter isSentinelEv =
      (sink_order e.sink_map).map WEvent.sentinel ∧
    (decode_thread_run items fails e).2.filter isDecodeEv = [] ∧
    (decode_thread_run items fails e).2.count WEvent.sleep = fails.length ∧
    (∀ (e2 : Engine) (h2 : Nat) (f2 : Bool), e2.decode_head = some h2 →
        (decode_thread_iter items f2 e2).1.sent_end_of_q = false ∧
        (decode_thread_iter items f2 e2).2.filter isSentinelEv = []) := by
  obtain ⟨f, fs, rfl⟩ : ∃ f fs, fails = f :: fs := by
    cases fails with
    | nil => exact absurd rfl hne
    | cons f fs => exact ⟨f, fs, rfl⟩
  have hstep : decode_thread_iter items f e =
      ({ e with sent_end_of_q := true },
        (sink_order e.sink_map).map WEvent.sentinel ++ [WEvent.sleep]) := by
    simp [decode_thread_iter, hhead, hsent]
  have hrun := decode_thread_run_idle items fs { e with sent_end_of_q := true }
    (by simpa using hhead) rfl
  have hall : decode_thread_run items (f :: fs) e =
      ({ e with sent_end_of_q := true },
        ((sink_order e.sink_map).map WEvent.sentinel ++ [WEvent.sleep]) ++
          List.replicate fs.length WEvent.sleep) := by
    simp [decode_thread_run, hstep, hrun]
  rw [hall]
  refine ⟨hhead, rfl, ?_, ?_, ?_, ?_⟩
  · simp [List.filter_append, filter_sentinel_map, isSentinelEv,
      List.filter_replicate]
  · simp [List.filter_append, filter_decode_map_sentinel, isDecodeEv,
      List.filter_replicate]
  · simp [List.count_append, count_sleep_map_sentinel, List.count_replicate,
      List.length_cons]
  · intro e2 h2 f2 hh2
    constructor
    · simp only [decode_thread_iter, hh2]
      by_cases hfull : every_sink_full e2.sink_map ≠ 0
      · simp [hfull]
      · rcases hf2 : f2 with _ | _
        · simp [hfull]
        · rcases hn : (items h2).next with _ | n <;> simp [hfull, hn]
    · simp only [decode_thread_iter, hh2]
      by_cases hfull : every_sink_full e2.sink_map ≠ 0
      · simp [hfull, isSentinelEv]
      · rcases hf2 : f2 with _ | _
        · simp [hfull, isSentinelEv]
        · rcases hn : (items h2).next with _ | n <;>
            simp [hfull, hn, isSentinelEv]

/-- C3 witness: a two-iteration run on an engine with one attached sink and
an empty playlist. -/
theorem decode_thread_end_of_q_witness :
    ((decode_thread_run items_triv [false, false] engine_one_sink).1.decode_head = none ∧
      (decode_thread_run items_triv [false, false] engine_one_sink).1.sent_end_of_q = true ∧
      (decode_thread_run items_triv [false, false] engine_one_sink).2.filter isSentinelEv =
        (sink_order engine_one_sink.sink_map).map WEvent.sentinel ∧
      (decode_thread_run items_triv [false, false] engine_one_sink).2.filter isDecodeEv = [] ∧
      (decode_thread_run items_triv [false, false] engine_one_sink).2.count WEvent.sleep =
        ([false, false] : List Bool).length ∧
      (∀ (e2 : Engine) (h2 : Nat) (f2 : Bool), e2.decode_head = some h2 →
        (decode_thread_iter items_triv f2 e2).1.sent_end_of_q = false ∧
        (decode_thread_iter items_triv f2 e2).2.filter isSentinelEv = [])) :=
  decode_thread_end_of_q items_triv [false, false] engine_one_sink
    (by decide) rfl rfl

/-- C9: with a non-none `decode_head` but an empty sink map, `every_sink`
returns its vacuous default 1, so the worker only sleeps the NOOP delay and
never calls `decode_one_frame`; in general an iteration with a current item
reaches `decode_one_frame` exactly when some attached sink has
`audioq_size` below its `min_audioq_size`. -/
theorem empty_sink_map_never_decodes (items : Nat → ItemView)
    (decode_fail : Bool) (e : Engine) (h : Nat)
    (hmap : e.sink_map = []) (hhead : e.decode_head = some h) :
    decode_thread_iter items decode_fail e =
      ({ e with sent_end_of_q := false }, [WEvent.sleep]) ∧
    every_sink_full e.sink_map = 1 ∧
    (∀ (e2 : Engine) (h2 : Nat) (f2 : Bool), e2.decode_head = some h2 →
        ((decode_thread_iter items f2 e2).2.filter isDecodeEv ≠ [] ↔
          ∃ node ∈ e2.sink_map, ∃ sink ∈ node.stack,
            sink.audioq_size < sink.min_audioq_size)) := by
  have hful : every_sink_full e.sink_map = 1 := by
    rw [hmap]; simp [every_sink_full, every_sink]
  refine ⟨?_, hful, ?_⟩
  · simp [decode_thread_iter, hhead, hful]
  · intro e2 h2 f2 hh2
    by_cases hex : ∃ node ∈ e2.sink_map, ∃ sink ∈ node.stack,
        sink.audioq_size < sink.min_audioq_size
    · have hf0 : every_sink_full e2.sink_map = 0 := by
        rw [every_sink_full_eq, if_pos hex]
      simp only [decode_thread_iter, hh2, hf0]
      rcases hf2 : f2 with _ | _
      · simp [isDecodeEv, hex]
      · rcases hn : (items h2).next with _ | n <;> simp [hn, isDecodeEv, hex]
    · have hf1 : every_sink_full e2.sink_map = 1 := by
        rw [every_sink_full_eq, if_neg hex]
      simp only [decode_thread_iter, hh2, hf1]
      simp [isDecodeEv, hex]

/-- C9 witness: the idle engine with one queued item and no sinks. -/
theorem empty_sink_map_never_decodes_witness :
    (decode_thread_iter items_triv false engine_pending =
      ({ engine_pending with sent_end_of_q := false }, [WEvent.sleep]) ∧
      every_sink_full engine_pending.sink_map = 1 ∧
      (∀ (e2 : Engine) (h2 : Nat) (f2 : Bool), e2.decode_head = some h2 →
        ((decode_thread_iter items_triv f2 e2).2.filter isDecodeEv ≠ [] ↔
          ∃ node ∈ e2.sink_map, ∃ sink ∈ node.stack,
            sink.audioq_size < sink.min_audioq_size))) :=
  empty_sink_map_never_decodes items_triv false engine_pending 3 rfl rfl

